import Mathlib

/-!
# Verification of the GST command-queue dispatcher controllers

Shallow embedding of the menu/controller dispatch mechanism of the
GST-discordbot repository:

* `gamestonk_terminal/stocks/fundamental_analysis/fa_controller.py`
* `gamestonk_terminal/stocks/fundamental_analysis/financial_modeling_prep/fmp_controller.py`
* `gamestonk_terminal/stocks/quantitative_analysis/qa_controller.py`
* `gamestonk_terminal/stocks/prediction_techniques/pred_controller.py`
* `discordbot/stocks/due_diligence/dd_menu.py`

Each controller's `switch`, its universal command handlers
(`call_home`, `call_quit`, `call_exit`, `call_reset`), and the body of its
`menu` while-loop (including the `except SystemExit` fuzzy-match recovery
block) are translated into pure functions over an explicit command queue
(`List String`).  The Python string operations used by that code
(`in`, `split`, `join`) are modelled by structurally recursive functions
over the character list of a `String`, so that every definition evaluates
by `decide` / `rfl` on concrete inputs.

`difflib.get_close_matches` is an external library collaborator; the menu
loops consume only its result (at most one close match), so it enters the
model as an explicit `Option String` argument of the recovery step.
-/

namespace GST

/-- The character list underlying a string. -/
def chars (s : String) : List Char := s.data

/-- Rebuild a string from its character list. -/
def ofChars (l : List Char) : String := String.mk l

/-- Python `str.split(sep)` for a one-character separator, on character
lists: splits at every occurrence of `sep`, keeping empty segments
(`"a//b" -> ["a", "", "b"]`, `"" -> [""]`). -/
def splitOnChar (sep : Char) : List Char → List (List Char)
  | [] => [[]]
  | c :: cs =>
    match splitOnChar sep cs with
    | [] => [[]]
    | h :: t => if c = sep then [] :: h :: t else (c :: h) :: t

/-- Python `s.split(sep)` for a one-character separator. -/
def pySplitOn (sep : Char) (s : String) : List String :=
  (splitOnChar sep (chars s)).map ofChars

/-- Python `c in s` for a single character `c`. -/
def pyContains (s : String) (c : Char) : Bool := (chars s).contains c

/-- Python `s.split()` (no separator) for strings whose only whitespace
characters are plain spaces — the only whitespace the controllers' command
lines contain: splits on runs of spaces and drops empty tokens. -/
def pySplit (s : String) : List String :=
  (pySplitOn ' ' s).filter (fun t => t != "")

/-- Python `sep.join(l)`. -/
def pyJoin (sep : String) : List String → String
  | [] => ""
  | [x] => x
  | x :: xs => x ++ sep ++ pyJoin sep xs

/-- Does the token look like an option flag (`argparse` treats tokens
starting with `-` as optionals)? -/
def startsWithDash (s : String) : Bool :=
  match chars s with
  | [] => false
  | c :: _ => c = '-'

/-- The value `argparse` assigns to the single positional `cmd` argument of
the controllers' parsers (`parser.add_argument("cmd", choices=CHOICES)`):
the first token that is not an option flag; `none` makes the parse fail
with `SystemExit`. -/
def firstPositional : List String → Option String
  | [] => none
  | t :: ts => if startsWithDash t then firstPositional ts else some t

/-- The alias-resolution block appearing verbatim in every controller's
`switch` (fa_controller.py lines 215-221, qa_controller.py lines 190-196,
fmp_controller.py lines 148-154, pred_controller.py lines 183-189):
`".."`/`"q"` become `"quit"`, `"?"`/`"h"` become `"help"`, `"r"` becomes
`"reset"`. -/
def resolveAlias (cmd : String) : String :=
  if cmd = ".." ∨ cmd = "q" then "quit"
  else if cmd = "?" ∨ cmd = "h" then "help"
  else if cmd = "r" then "reset"
  else cmd

/-- The corrected command line the fuzzy-match recovery blocks compute:
`f"{similar_cmd[0]} {' '.join(an_input.split(' ')[1:])}"` when the input
contains a space, else `similar_cmd[0]` (fa_controller.py lines 1021-1026
and the analogous lines of the other controllers). -/
def candidate_input (an_input m : String) : String :=
  if pyContains an_input ' ' then
    m ++ " " ++ pyJoin " " ((pySplitOn ' ' an_input).drop 1)
  else m

/-- The navigation-slash block appearing verbatim in every controller's
`switch` (fa_controller.py lines 196-210 and the analogous lines of the
other three controllers).  When the input contains `/` it is split on `/`;
an empty first segment turns the current line into `"home"`, otherwise the
first segment is the current line; the remaining segments are walked in
reverse and each non-empty one is inserted at queue position 0.  Returns
the current command line together with the updated queue. -/
def navUpdate (an_input : String) (queue : List String) : String × List String :=
  if pyContains an_input '/' then
    let actions := pySplitOn '/' an_input
    let cur := if actions.headD "" = "" then "home" else actions.headD ""
    (cur, ((actions.drop 1).reverse).foldl
      (fun q cmd => if cmd ≠ "" then cmd :: q else q) queue)
  else (an_input, queue)

/-- Non-empty elements of a list, in order (specification form of the
reversed insert-at-front loop of `navUpdate`). -/
def keepNonEmpty : List String → List String
  | [] => []
  | c :: cs => if c ≠ "" then c :: keepNonEmpty cs else keepNonEmpty cs

/-- Outcome of one call to a controller's `switch`. -/
inductive SwitchOutcome where
  /-- `an_input` was empty: a blank line is printed and the queue returned. -/
  | emptyLine (queue : List String) : SwitchOutcome
  /-- A recognized command was dispatched to its `call_` handler. -/
  | ok (dispatched : String) (queue : List String) : SwitchOutcome
  /-- A sub-menu command handed the queue to a nested controller. -/
  | subMenu (name : String) (queue : List String) : SwitchOutcome
  /-- `argparse` rejected the command token: `SystemExit` is raised with
  the controller's queue in the shown state. -/
  | sysExit (queue : List String) : SwitchOutcome
deriving DecidableEq, Repr

/-- Outcome of one iteration of a controller's `menu` while-loop. -/
inductive TurnResult where
  /-- The loop returned the residual queue to its caller. -/
  | exited (residual : List String) : TurnResult
  /-- The loop continues with the given queue and current `an_input`;
  `notices` records the "Replacing by" messages printed this turn. -/
  | next (queue : List String) (an_input : String) (notices : List String) : TurnResult
  /-- A sub-menu command handed the queue to a nested controller's menu. -/
  | handed (name : String) (queue : List String) : TurnResult
deriving DecidableEq, Repr

namespace FaController

/-- fa_controller.py lines 44-55. -/
def CHOICES_UNIVERSAL : List String :=
  ["cls", "home", "h", "?", "help", "q", "quit", "..", "exit", "r", "reset"]

/-- fa_controller.py lines 57-80 (the source list repeats income, balance
and cash). -/
def CHOICES_COMMANDS : List String :=
  ["load", "analysis", "score", "warnings", "data", "income", "balance",
   "cash", "mgmt", "info", "shrs", "sust", "cal", "web", "hq", "overview",
   "key", "income", "balance", "cash", "divs", "earnings", "fraud"]

/-- fa_controller.py lines 85-87. -/
def CHOICES_MENUS : List String := ["fmp"]

/-- fa_controller.py lines 89-90: `CHOICES += CHOICES_COMMANDS;
CHOICES += CHOICES_MENUS`. -/
def CHOICES : List String := CHOICES_UNIVERSAL ++ CHOICES_COMMANDS ++ CHOICES_MENUS

/-- fa_controller.py lines 235-238. -/
def call_home (queue : List String) : List String :=
  "quit" :: "quit" :: queue

/-- fa_controller.py lines 244-247. -/
def call_quit (queue : List String) : List String :=
  "quit" :: queue

/-- fa_controller.py lines 249-253. -/
def call_exit (queue : List String) : List String :=
  "quit" :: "quit" :: "quit" :: queue

/-- fa_controller.py lines 255-263: insert `"fa"`, then (if a ticker is
loaded) `f"load {self.ticker}"`, then `"stocks"`, `"reset"`, `"quit"`,
`"quit"`, each at queue position 0. -/
def call_reset (ticker : String) (queue : List String) : List String :=
  let q := "fa" :: queue
  let q := if ticker ≠ "" then ("load " ++ ticker) :: q else q
  "quit" :: "quit" :: "reset" :: "stocks" :: q

/-- fa_controller.py lines 178-229: `switch`.  Empty input returns the
queue unchanged; otherwise the navigation-slash block runs, the command
token is parsed against `CHOICES` (failure raises `SystemExit`), aliases
are resolved and the matching `call_` handler runs.  Handlers other than
the universal queue-manipulating ones and the `fmp` sub-menu do not touch
the queue. -/
def switch (ticker : String) (queue : List String) (an_input : String) :
    SwitchOutcome :=
  if an_input = "" then SwitchOutcome.emptyLine queue
  else
    let nav := navUpdate an_input queue
    match firstPositional (pySplit nav.1) with
    | none => SwitchOutcome.sysExit nav.2
    | some cmd0 =>
      if CHOICES.contains cmd0 then
        let cmd := if cmd0 ≠ "" then resolveAlias cmd0 else cmd0
        if cmd = "home" then SwitchOutcome.ok cmd (call_home nav.2)
        else if cmd = "quit" then SwitchOutcome.ok cmd (call_quit nav.2)
        else if cmd = "exit" then SwitchOutcome.ok cmd (call_exit nav.2)
        else if cmd = "reset" then SwitchOutcome.ok cmd (call_reset ticker nav.2)
        else if CHOICES_MENUS.contains cmd then SwitchOutcome.subMenu cmd nav.2
        else SwitchOutcome.ok cmd nav.2
      else SwitchOutcome.sysExit nav.2

/-- fa_controller.py lines 1009-1039: the `except SystemExit` recovery of
`menu`, given difflib's closest match.  Note line 1035 inserts the
original `an_input`, not the computed `candidate_input`. -/
def recover (an_input : String) (queue : List String)
    (similar_cmd : Option String) : TurnResult :=
  match similar_cmd with
  | some m =>
    if candidate_input an_input m = an_input then TurnResult.next [] "" []
    else TurnResult.next (an_input :: queue) an_input
      ["Replacing by " ++ an_input]
  | none => TurnResult.next [] "" []

/-- Processing of one current command line inside `menu`'s loop:
`fa_controller.queue = fa_controller.switch(an_input)` guarded by the
`except SystemExit` recovery (fa_controller.py lines 1005-1039). -/
def runLine (ticker : String) (queue : List String) (an_input : String)
    (similar_cmd : Option String) : TurnResult :=
  match switch ticker queue an_input with
  | SwitchOutcome.emptyLine q => TurnResult.next q an_input []
  | SwitchOutcome.ok _ q => TurnResult.next q an_input []
  | SwitchOutcome.subMenu name q => TurnResult.handed name q
  | SwitchOutcome.sysExit q => recover an_input q similar_cmd

/-- One iteration of `menu`'s while-loop (fa_controller.py lines 971-1039):
a non-empty queue whose head is an exit token returns `queue[1:]` (or `[]`
when it was the only element); otherwise the head (or, with an empty
queue, the interactively read `userInput`) is processed by `switch` under
the `SystemExit` recovery. -/
def menuTurn (ticker : String) (queue : List String) (userInput : String)
    (similar_cmd : Option String) : TurnResult :=
  match queue with
  | head :: rest =>
    if ["q", "..", "quit"].contains head then
      TurnResult.exited (if (head :: rest).length > 1 then rest else [])
    else runLine ticker rest head similar_cmd
  | [] => runLine ticker [] userInput similar_cmd

end FaController

namespace FmpController

/-- fmp_controller.py lines 28-40. -/
def CHOICES_UNIVERSAL : List String :=
  ["cls", "home", "h", "?", "help", "q", "quit", "..", "exit", "r", "reset"]

/-- fmp_controller.py lines 42-53. -/
def CHOICES_COMMANDS : List String :=
  ["profile", "quote", "enterprise", "dcf", "income", "balance", "cash",
   "metrics", "ratios", "growth"]

/-- fmp_controller.py line 54: `CHOICES += CHOICES_COMMANDS`. -/
def CHOICES : List String := CHOICES_UNIVERSAL ++ CHOICES_COMMANDS

/-- fmp_controller.py lines 169-173: three `"quit"` inserts (the fmp menu
sits three levels deep, under /stocks/fa/). -/
def call_home (queue : List String) : List String :=
  "quit" :: "quit" :: "quit" :: queue

/-- fmp_controller.py lines 179-181. -/
def call_quit (queue : List String) : List String :=
  "quit" :: queue

/-- fmp_controller.py lines 183-188. -/
def call_exit (queue : List String) : List String :=
  "quit" :: "quit" :: "quit" :: "quit" :: queue

/-- fmp_controller.py lines 190-200: insert `"fmp"`, then `"fa"`, then (if
a ticker is loaded) `f"load {self.ticker}"`, then `"stocks"`, `"reset"`
and three `"quit"`, each at queue position 0. -/
def call_reset (ticker : String) (queue : List String) : List String :=
  let q := "fa" :: "fmp" :: queue
  let q := if ticker ≠ "" then ("load " ++ ticker) :: q else q
  "quit" :: "quit" :: "quit" :: "reset" :: "stocks" :: q

/-- fmp_controller.py lines 113-163: `switch` (same shape as the fa one;
no sub-menu commands). -/
def switch (ticker : String) (queue : List String) (an_input : String) :
    SwitchOutcome :=
  if an_input = "" then SwitchOutcome.emptyLine queue
  else
    let nav := navUpdate an_input queue
    match firstPositional (pySplit nav.1) with
    | none => SwitchOutcome.sysExit nav.2
    | some cmd0 =>
      if CHOICES.contains cmd0 then
        let cmd := if cmd0 ≠ "" then resolveAlias cmd0 else cmd0
        if cmd = "home" then SwitchOutcome.ok cmd (call_home nav.2)
        else if cmd = "quit" then SwitchOutcome.ok cmd (call_quit nav.2)
        else if cmd = "exit" then SwitchOutcome.ok cmd (call_exit nav.2)
        else if cmd = "reset" then SwitchOutcome.ok cmd (call_reset ticker nav.2)
        else SwitchOutcome.ok cmd nav.2
      else SwitchOutcome.sysExit nav.2

/-- fmp_controller.py lines 697-726: the `except SystemExit` recovery;
like the fa one it computes `candidate_input` but inserts and announces
the original `an_input` (line 723). -/
def recover (an_input : String) (queue : List String)
    (similar_cmd : Option String) : TurnResult :=
  match similar_cmd with
  | some m =>
    if candidate_input an_input m = an_input then TurnResult.next [] "" []
    else TurnResult.next (an_input :: queue) an_input
      ["Replacing by " ++ an_input]
  | none => TurnResult.next [] "" []

/-- `switch` guarded by the `SystemExit` recovery
(fmp_controller.py lines 693-727). -/
def runLine (ticker : String) (queue : List String) (an_input : String)
    (similar_cmd : Option String) : TurnResult :=
  match switch ticker queue an_input with
  | SwitchOutcome.emptyLine q => TurnResult.next q an_input []
  | SwitchOutcome.ok _ q => TurnResult.next q an_input []
  | SwitchOutcome.subMenu name q => TurnResult.handed name q
  | SwitchOutcome.sysExit q => recover an_input q similar_cmd

/-- One iteration of the fmp `menu` while-loop
(fmp_controller.py lines 659-727). -/
def menuTurn (ticker : String) (queue : List String) (userInput : String)
    (similar_cmd : Option String) : TurnResult :=
  match queue with
  | head :: rest =>
    if ["q", "..", "quit"].contains head then
      TurnResult.exited (if (head :: rest).length > 1 then rest else [])
    else runLine ticker rest head similar_cmd
  | [] => runLine ticker [] userInput similar_cmd

end FmpController

namespace QaController

/-- qa_controller.py lines 37-49. -/
def CHOICES_UNIVERSAL : List String :=
  ["cls", "home", "h", "?", "help", "q", "quit", "..", "exit", "r", "reset"]

/-- qa_controller.py lines 51-72 (the source list repeats unitroot). -/
def CHOICES_COMMANDS : List String :=
  ["load", "pick", "raw", "summary", "hist", "cdf", "bw", "rolling",
   "decompose", "cusum", "acf", "spread", "quantile", "skew", "kurtosis",
   "normality", "qqplot", "unitroot", "goodness", "unitroot", "capm"]

/-- qa_controller.py line 74: `CHOICES += CHOICES_COMMANDS`. -/
def CHOICES : List String := CHOICES_UNIVERSAL ++ CHOICES_COMMANDS

/-- qa_controller.py lines 210-213. -/
def call_home (queue : List String) : List String :=
  "quit" :: "quit" :: queue

/-- qa_controller.py lines 219-222. -/
def call_quit (queue : List String) : List String :=
  "quit" :: queue

/-- qa_controller.py lines 224-228. -/
def call_exit (queue : List String) : List String :=
  "quit" :: "quit" :: "quit" :: queue

/-- qa_controller.py lines 230-238. -/
def call_reset (ticker : String) (queue : List String) : List String :=
  let q := "qa" :: queue
  let q := if ticker ≠ "" then ("load " ++ ticker) :: q else q
  "quit" :: "quit" :: "reset" :: "stocks" :: q

/-- qa_controller.py lines 156-204: `switch` (same shape as the fa one;
no sub-menu commands). -/
def switch (ticker : String) (queue : List String) (an_input : String) :
    SwitchOutcome :=
  if an_input = "" then SwitchOutcome.emptyLine queue
  else
    let nav := navUpdate an_input queue
    match firstPositional (pySplit nav.1) with
    | none => SwitchOutcome.sysExit nav.2
    | some cmd0 =>
      if CHOICES.contains cmd0 then
        let cmd := if cmd0 ≠ "" then resolveAlias cmd0 else cmd0
        if cmd = "home" then SwitchOutcome.ok cmd (call_home nav.2)
        else if cmd = "quit" then SwitchOutcome.ok cmd (call_quit nav.2)
        else if cmd = "exit" then SwitchOutcome.ok cmd (call_exit nav.2)
        else if cmd = "reset" then SwitchOutcome.ok cmd (call_reset ticker nav.2)
        else SwitchOutcome.ok cmd nav.2
      else SwitchOutcome.sysExit nav.2

/-- qa_controller.py lines 927-954: the `except SystemExit` recovery.
Unlike the fa/fmp/pred variants it sets `an_input` to the corrected line
before inserting it, but it checks the degenerate `candidate == an_input`
case only inside the `" " in an_input` branch, and its no-match branch
only prints (it clears neither the queue nor `an_input`). -/
def recover (an_input : String) (queue : List String)
    (similar_cmd : Option String) : TurnResult :=
  match similar_cmd with
  | some m =>
    if pyContains an_input ' ' then
      let c := candidate_input an_input m
      if c = an_input then TurnResult.next [] "" []
      else TurnResult.next (c :: queue) c ["Replacing by " ++ c]
    else TurnResult.next (m :: queue) m ["Replacing by " ++ m]
  | none => TurnResult.next queue an_input []

/-- `switch` guarded by the `SystemExit` recovery
(qa_controller.py lines 923-954). -/
def runLine (ticker : String) (queue : List String) (an_input : String)
    (similar_cmd : Option String) : TurnResult :=
  match switch ticker queue an_input with
  | SwitchOutcome.emptyLine q => TurnResult.next q an_input []
  | SwitchOutcome.ok _ q => TurnResult.next q an_input []
  | SwitchOutcome.subMenu name q => TurnResult.handed name q
  | SwitchOutcome.sysExit q => recover an_input q similar_cmd

/-- One iteration of the qa `menu` while-loop
(qa_controller.py lines 886-954). -/
def menuTurn (ticker : String) (queue : List String) (userInput : String)
    (similar_cmd : Option String) : TurnResult :=
  match queue with
  | head :: rest =>
    if ["q", "..", "quit"].contains head then
      TurnResult.exited (if (head :: rest).length > 1 then rest else [])
    else runLine ticker rest head similar_cmd
  | [] => runLine ticker [] userInput similar_cmd

end QaController

namespace PredController

/-- pred_controller.py lines 44-56. -/
def CHOICES_UNIVERSAL : List String :=
  ["cls", "home", "h", "?", "help", "q", "quit", "..", "exit", "r", "reset"]

/-- pred_controller.py lines 58-70. -/
def CHOICES_COMMANDS : List String :=
  ["load", "pick", "ets", "knn", "regression", "arima", "mlp", "rnn",
   "lstm", "conv1d", "mc"]

/-- pred_controller.py line 71: `CHOICES += CHOICES_COMMANDS`. -/
def CHOICES : List String := CHOICES_UNIVERSAL ++ CHOICES_COMMANDS

/-- pred_controller.py lines 201-204. -/
def call_home (queue : List String) : List String :=
  "quit" :: "quit" :: queue

/-- pred_controller.py lines 210-213. -/
def call_quit (queue : List String) : List String :=
  "quit" :: queue

/-- pred_controller.py lines 215-219. -/
def call_exit (queue : List String) : List String :=
  "quit" :: "quit" :: "quit" :: queue

/-- pred_controller.py lines 221-229. -/
def call_reset (ticker : String) (queue : List String) : List String :=
  let q := "pred" :: queue
  let q := if ticker ≠ "" then ("load " ++ ticker) :: q else q
  "quit" :: "quit" :: "reset" :: "stocks" :: q

/-- pred_controller.py lines 145-195: `switch` (same shape as the fa one;
no sub-menu commands). -/
def switch (ticker : String) (queue : List String) (an_input : String) :
    SwitchOutcome :=
  if an_input = "" then SwitchOutcome.emptyLine queue
  else
    let nav := navUpdate an_input queue
    match firstPositional (pySplit nav.1) with
    | none => SwitchOutcome.sysExit nav.2
    | some cmd0 =>
      if CHOICES.contains cmd0 then
        let cmd := if cmd0 ≠ "" then resolveAlias cmd0 else cmd0
        if cmd = "home" then SwitchOutcome.ok cmd (call_home nav.2)
        else if cmd = "quit" then SwitchOutcome.ok cmd (call_quit nav.2)
        else if cmd = "exit" then SwitchOutcome.ok cmd (call_exit nav.2)
        else if cmd = "reset" then SwitchOutcome.ok cmd (call_reset ticker nav.2)
        else SwitchOutcome.ok cmd nav.2
      else SwitchOutcome.sysExit nav.2

/-- pred_controller.py lines 953-982: the `except SystemExit` recovery;
like the fa one it computes `candidate_input` but inserts and announces
the original `an_input` (line 979). -/
def recover (an_input : String) (queue : List String)
    (similar_cmd : Option String) : TurnResult :=
  match similar_cmd with
  | some m =>
    if candidate_input an_input m = an_input then TurnResult.next [] "" []
    else TurnResult.next (an_input :: queue) an_input
      ["Replacing by " ++ an_input]
  | none => TurnResult.next [] "" []

/-- `switch` guarded by the `SystemExit` recovery
(pred_controller.py lines 949-982). -/
def runLine (ticker : String) (queue : List String) (an_input : String)
    (similar_cmd : Option String) : TurnResult :=
  match switch ticker queue an_input with
  | SwitchOutcome.emptyLine q => TurnResult.next q an_input []
  | SwitchOutcome.ok _ q => TurnResult.next q an_input []
  | SwitchOutcome.subMenu name q => TurnResult.handed name q
  | SwitchOutcome.sysExit q => recover an_input q similar_cmd

/-- One iteration of the pred `menu` while-loop
(pred_controller.py lines 915-982). -/
def menuTurn (ticker : String) (queue : List String) (userInput : String)
    (similar_cmd : Option String) : TurnResult :=
  match queue with
  | head :: rest =>
    if ["q", "..", "quit"].contains head then
      TurnResult.exited (if (head :: rest).length > 1 then rest else [])
    else runLine ticker rest head similar_cmd
  | [] => runLine ticker [] userInput similar_cmd

end PredController

namespace DdMenu

/-- Observable effect of the Discord due-diligence reaction menu
(`discordbot/stocks/due_diligence/dd_menu.py`, `due_diligence`). -/
inductive DDEffect where
  /-- `ctx.send(embed=...)`, identified by the embed title. -/
  | sendEmbed (title : String) : DDEffect
  /-- `msg.add_reaction(emoji)`. -/
  | addReaction (emoji : String) : DDEffect
  /-- `msg.remove_reaction(emoji, ctx.bot.user)`. -/
  | removeReaction (emoji : String) : DDEffect
  /-- One of the `*_command(ctx, ticker)` collaborators. -/
  | runCommand (cmd : String) : DDEffect
deriving DecidableEq, Repr

/-- dd_menu.py line 149. -/
def emoji_list : List String := ["0️⃣", "1️⃣", "2️⃣", "3️⃣", "4️⃣", "5️⃣", "6️⃣"]

/-- dd_menu.py lines 161-188: which due-diligence command a received
reaction emoji triggers. -/
def reactionDispatch (ticker e : String) : List DDEffect :=
  if e = "0️⃣" then [DDEffect.runCommand ("analyst " ++ ticker)]
  else if e = "1️⃣" then [DDEffect.runCommand ("pt " ++ ticker)]
  else if e = "2️⃣" then [DDEffect.runCommand ("est " ++ ticker)]
  else if e = "3️⃣" then [DDEffect.runCommand ("sec " ++ ticker)]
  else if e = "4️⃣" then [DDEffect.runCommand ("supplier " ++ ticker)]
  else if e = "5️⃣" then [DDEffect.runCommand ("customer " ++ ticker)]
  else if e = "6️⃣" then [DDEffect.runCommand ("arktrades " ++ ticker)]
  else []

/-- dd_menu.py lines 141-204: the effect trace of `due_diligence` after
the menu embed is sent.  The menu embed is sent and every emoji of
`emoji_list` is added as a reaction; the bounded `wait_for` either yields
a reaction (`some e`: the matching command runs, then the added reactions
are removed) or times out (`none`: `asyncio.TimeoutError` is caught, the
added reactions are removed and a timeout notice embed is sent). -/
def due_diligence (ticker : String) (reaction : Option String) : List DDEffect :=
  DDEffect.sendEmbed "Stocks: Due Diligence (DD) Menu"
    :: emoji_list.map DDEffect.addReaction
    ++ (match reaction with
      | some e => reactionDispatch ticker e
          ++ emoji_list.map DDEffect.removeReaction
      | none => emoji_list.map DDEffect.removeReaction
          ++ [DDEffect.sendEmbed "TIMEOUT Stocks: Due Diligence (DD) Menu"])

end DdMenu

/-! ## Helper lemmas -/

theorem chars_append (s t : String) : chars (s ++ t) = chars s ++ chars t := rfl

theorem ofChars_chars (s : String) : ofChars (chars s) = s := rfl

theorem splitOnChar_ne_nil (sep : Char) (l : List Char) :
    splitOnChar sep l ≠ [] := by
  cases l with
  | nil => simp [splitOnChar]
  | cons c cs =>
    unfold splitOnChar
    rcases h : splitOnChar sep cs with _ | ⟨a, t⟩
    · simp
    · simp only []
      split <;> simp

theorem splitOnChar_cons_self (sep : Char) (l : List Char) :
    splitOnChar sep (sep :: l) = [] :: splitOnChar sep l := by
  rcases h : splitOnChar sep l with _ | ⟨a, t⟩
  · exact absurd h (splitOnChar_ne_nil sep l)
  · simp [splitOnChar, h]

theorem splitOnChar_of_not_contains (sep : Char) (l : List Char)
    (h : l.contains sep = false) : splitOnChar sep l = [l] := by
  induction l with
  | nil => rfl
  | cons c cs ih =>
    simp only [List.contains_cons, Bool.or_eq_false_iff, beq_eq_false_iff_ne] at h
    unfold splitOnChar
    rw [ih h.2]
    simp [Ne.symm h.1]

theorem foldl_insert_rev (l : List String) (q : List String) :
    l.reverse.foldl (fun acc cmd => if cmd ≠ "" then cmd :: acc else acc) q
      = keepNonEmpty l ++ q := by
  induction l generalizing q with
  | nil => rfl
  | cons a l ih =>
    rw [List.reverse_cons, List.foldl_append, ih]
    by_cases ha : a = "" <;> simp [keepNonEmpty, ha]

theorem exit_tail (h : String) (tl : List String) :
    (if (h :: tl).length > 1 then tl else []) = tl := by
  cases tl <;> simp

/-- Shape of `navUpdate` on an input containing a slash: the current line
is the first segment (or `"home"` if it is empty) and the non-empty
remaining segments land at the queue front in their original order. -/
theorem navUpdate_slash (s : String) (q : List String)
    (hc : pyContains s '/' = true) :
    navUpdate s q =
      ((if (pySplitOn '/' s).headD "" = "" then "home"
        else (pySplitOn '/' s).headD ""),
       keepNonEmpty ((pySplitOn '/' s).drop 1) ++ q) := by
  unfold navUpdate
  rw [if_pos hc]
  dsimp only
  rw [foldl_insert_rev]

/-! ## Claim theorems -/

/-- C10: for the empty input string, `switch` of every controller returns
the queue unchanged without resolving a command or invoking any handler
(the `emptyLine` outcome is the early-return branch that only prints a
blank line). -/
theorem switch_empty_input_is_noop (t : String) (q : List String) :
    FaController.switch t q "" = SwitchOutcome.emptyLine q ∧
    FmpController.switch t q "" = SwitchOutcome.emptyLine q ∧
    QaController.switch t q "" = SwitchOutcome.emptyLine q ∧
    PredController.switch t q "" = SwitchOutcome.emptyLine q :=
  ⟨rfl, rfl, rfl, rfl⟩

/-- C5: dispatching `home` prepends exactly two `"quit"` tokens to the
queue in the two-level-deep fa, qa and pred controllers and exactly three
in the three-level-deep fmp controller, and changes nothing else: the
outcome is an ordinary `ok` dispatch whose queue is exactly the quits in
front of the untouched old queue (the `call_home` bodies touch only the
queue). -/
theorem call_home_prepends_depth_quits (t : String) (q : List String) :
    FaController.switch t q "home" =
      SwitchOutcome.ok "home" ("quit" :: "quit" :: q) ∧
    QaController.switch t q "home" =
      SwitchOutcome.ok "home" ("quit" :: "quit" :: q) ∧
    PredController.switch t q "home" =
      SwitchOutcome.ok "home" ("quit" :: "quit" :: q) ∧
    FmpController.switch t q "home" =
      SwitchOutcome.ok "home" ("quit" :: "quit" :: "quit" :: q) :=
  ⟨rfl, rfl, rfl, rfl⟩

/-- C8: the alias mapping of `switch` (`..`/`q` to `quit`, `?`/`h` to
`help`, `r` to `reset`, all else unchanged) is idempotent, its targets
being fixed points. -/
theorem resolveAlias_idem :
    (∀ s : String, resolveAlias (resolveAlias s) = resolveAlias s) ∧
    resolveAlias "quit" = "quit" ∧
    resolveAlias "help" = "help" ∧
    resolveAlias "reset" = "reset" := by
  refine ⟨?_, by decide, by decide, by decide⟩
  intro s
  unfold resolveAlias
  split_ifs <;> simp_all

/-- C4 (counterexample): the fmp `call_reset` does not prepend the claimed
sequence ending directly in the menu's own name — it inserts `"fa"`
between `"load AAPL"` and `"fmp"` (fmp_controller.py line 193). -/
theorem fmp_reset_extra_fa_counterexample :
    FmpController.call_reset "AAPL" [] ≠
      ["quit", "quit", "quit", "reset", "stocks", "load AAPL", "fmp"] := by
  decide

/-- C4 (amended): with a loaded ticker `t`, `call_reset` prepends, front to
back, one `"quit"` per nesting level (two for fa/qa, three for fmp), then
`"reset"`, `"stocks"`, `"load t"`, and then the re-entry path to its own
menu — just `"fa"` resp. `"qa"` for the two-level controllers, but
`"fa"` followed by `"fmp"` for the fmp controller; with no ticker loaded
the `"load"` entry is omitted. -/
theorem call_reset_sequences (t : String) (q : List String) (ht : t ≠ "") :
    FaController.call_reset t q =
      ["quit", "quit", "reset", "stocks", "load " ++ t, "fa"] ++ q ∧
    QaController.call_reset t q =
      ["quit", "quit", "reset", "stocks", "load " ++ t, "qa"] ++ q ∧
    FmpController.call_reset t q =
      ["quit", "quit", "quit", "reset", "stocks", "load " ++ t, "fa", "fmp"] ++ q ∧
    FaController.call_reset "" q = ["quit", "quit", "reset", "stocks", "fa"] ++ q ∧
    QaController.call_reset "" q = ["quit", "quit", "reset", "stocks", "qa"] ++ q ∧
    FmpController.call_reset "" q =
      ["quit", "quit", "quit", "reset", "stocks", "fa", "fmp"] ++ q := by
  refine ⟨?_, ?_, ?_, rfl, rfl, rfl⟩ <;>
    simp [FaController.call_reset, QaController.call_reset,
      FmpController.call_reset, ht]

/-- Witness for `call_reset_sequences` at ticker `"AAPL"` and queue
`["x"]`. -/
theorem call_reset_sequences_witness :
    FaController.call_reset "AAPL" ["x"] =
      ["quit", "quit", "reset", "stocks", "load " ++ "AAPL", "fa"] ++ ["x"] ∧
    QaController.call_reset "AAPL" ["x"] =
      ["quit", "quit", "reset", "stocks", "load " ++ "AAPL", "qa"] ++ ["x"] ∧
    FmpController.call_reset "AAPL" ["x"] =
      ["quit", "quit", "quit", "reset", "stocks", "load " ++ "AAPL", "fa", "fmp"]
        ++ ["x"] ∧
    FaController.call_reset "" ["x"] =
      ["quit", "quit", "reset", "stocks", "fa"] ++ ["x"] ∧
    QaController.call_reset "" ["x"] =
      ["quit", "quit", "reset", "stocks", "qa"] ++ ["x"] ∧
    FmpController.call_reset "" ["x"] =
      ["quit", "quit", "quit", "reset", "stocks", "fa", "fmp"] ++ ["x"] :=
  call_reset_sequences "AAPL" ["x"] (by decide)

/-- C2: in every controller menu loop, a non-empty queue whose head is one
of `"q"`, `".."`, `"quit"` makes the loop return immediately without
dispatching that token; the returned residual queue is exactly the tail
(the empty list when the exit token was the only element, the non-empty
tail otherwise). -/
theorem exit_token_returns_tail (t u : String) (cm : Option String)
    (h : String) (tl : List String) (hh : h = "q" ∨ h = ".." ∨ h = "quit") :
    FaController.menuTurn t (h :: tl) u cm = TurnResult.exited tl ∧
    FmpController.menuTurn t (h :: tl) u cm = TurnResult.exited tl ∧
    QaController.menuTurn t (h :: tl) u cm = TurnResult.exited tl ∧
    PredController.menuTurn t (h :: tl) u cm = TurnResult.exited tl := by
  rcases hh with rfl | rfl | rfl <;>
    exact ⟨by rw [FaController.menuTurn]; simp [exit_tail],
           by rw [FmpController.menuTurn]; simp [exit_tail],
           by rw [QaController.menuTurn]; simp [exit_tail],
           by rw [PredController.menuTurn]; simp [exit_tail]⟩

/-- Witness for `exit_token_returns_tail` with head `"quit"` and a
non-empty tail. -/
theorem exit_token_returns_tail_witness :
    FaController.menuTurn "AAPL" ["quit", "help"] "" none =
      TurnResult.exited ["help"] ∧
    FmpController.menuTurn "AAPL" ["quit", "help"] "" none =
      TurnResult.exited ["help"] ∧
    QaController.menuTurn "AAPL" ["quit", "help"] "" none =
      TurnResult.exited ["help"] ∧
    PredController.menuTurn "AAPL" ["quit", "help"] "" none =
      TurnResult.exited ["help"] :=
  exit_token_returns_tail "AAPL" "" none "quit" ["help"] (Or.inr (Or.inr rfl))

/-- C1: behaviour of the fuzzy-match recovery at the failing input.  For
the unrecognized line `"laod AAPL"` with closest match `"load"` (difflib
similarity 0.75 ≥ 0.7) the corrected line `candidate_input` is
`"load AAPL"`, yet the fa, fmp and pred menu loops re-enqueue and announce
the ORIGINAL line (`queue.insert(0, an_input)` after computing but never
using `candidate_input`), so the bad line replays forever; only the qa
loop re-enqueues and announces the corrected line as the claim states. -/
theorem fuzzy_recover_reenqueues_original :
    candidate_input "laod AAPL" "load" = "load AAPL" ∧
    FaController.menuTurn "AAPL" ["laod AAPL"] "" (some "load") =
      TurnResult.next ["laod AAPL"] "laod AAPL" ["Replacing by laod AAPL"] ∧
    PredController.menuTurn "AAPL" ["laod AAPL"] "" (some "load") =
      TurnResult.next ["laod AAPL"] "laod AAPL" ["Replacing by laod AAPL"] ∧
    candidate_input "incme AAPL" "income" = "income AAPL" ∧
    FmpController.menuTurn "AAPL" ["incme AAPL"] "" (some "income") =
      TurnResult.next ["incme AAPL"] "incme AAPL" ["Replacing by incme AAPL"] ∧
    QaController.menuTurn "AAPL" ["laod AAPL"] "" (some "load") =
      TurnResult.next ["load AAPL"] "load AAPL" ["Replacing by load AAPL"] := by
  decide

/-- C7 (counterexample): in the qa menu the degenerate-match guard is
checked only inside the `" " in an_input` branch; for the space-free input
`"load"` whose closest match is `"load"` itself (a legal difflib result,
since `"load"` is in qa's `CHOICES` and identical strings have similarity
1.0) the candidate equals the original input verbatim, yet the recovery
re-enqueues it at the queue front instead of clearing the queue and
discarding the input. -/
theorem qa_degenerate_guard_counterexample :
    candidate_input "load" "load" = "load" ∧
    QaController.recover "load" ["hist"] (some "load") =
      TurnResult.next ["load", "hist"] "load" ["Replacing by load"] ∧
    QaController.recover "load" ["hist"] (some "load") ≠
      TurnResult.next [] "" [] := by
  decide

/-- C7 (amended): whenever the fuzzy-matched candidate line is identical
to the original input verbatim, the fa, fmp and pred recovery blocks clear
the queue, discard the input and re-enqueue nothing; the qa recovery does
so only when the input contains a space (for a space-free input whose
match equals it verbatim, qa re-enqueues the match unchanged). -/
theorem degenerate_fuzzy_guard (an_input m : String) (q : List String)
    (hc : candidate_input an_input m = an_input) :
    FaController.recover an_input q (some m) = TurnResult.next [] "" [] ∧
    FmpController.recover an_input q (some m) = TurnResult.next [] "" [] ∧
    PredController.recover an_input q (some m) = TurnResult.next [] "" [] ∧
    (pyContains an_input ' ' = true →
      QaController.recover an_input q (some m) = TurnResult.next [] "" []) := by
  refine ⟨?_, ?_, ?_, fun hsp => ?_⟩
  · simp [FaController.recover, hc]
  · simp [FmpController.recover, hc]
  · simp [PredController.recover, hc]
  · simp [QaController.recover, hsp, hc]

/-- Witness for `degenerate_fuzzy_guard` at the degenerate input
`"load -h"` with match `"load"`. -/
theorem degenerate_fuzzy_guard_witness :
    FaController.recover "load -h" ["z"] (some "load") =
      TurnResult.next [] "" [] ∧
    FmpController.recover "load -h" ["z"] (some "load") =
      TurnResult.next [] "" [] ∧
    PredController.recover "load -h" ["z"] (some "load") =
      TurnResult.next [] "" [] ∧
    (pyContains "load -h" ' ' = true →
      QaController.recover "load -h" ["z"] (some "load") =
        TurnResult.next [] "" []) :=
  degenerate_fuzzy_guard "load -h" "load" ["z"] (by decide)

/-- C9: when the due-diligence reaction menu's bounded wait times out
(reaction outcome `none`), the timeout is caught and the trace is a
normal one: after the menu embed and the reaction additions it removes
exactly the added reactions and ends by sending the timeout notice embed;
in particular every emoji the menu added is also removed. -/
theorem dd_timeout_cleanup (ticker : String) :
    DdMenu.due_diligence ticker none =
      DdMenu.DDEffect.sendEmbed "Stocks: Due Diligence (DD) Menu"
        :: DdMenu.emoji_list.map DdMenu.DDEffect.addReaction
        ++ DdMenu.emoji_list.map DdMenu.DDEffect.removeReaction
        ++ [DdMenu.DDEffect.sendEmbed "TIMEOUT Stocks: Due Diligence (DD) Menu"] ∧
    (∀ e, DdMenu.DDEffect.addReaction e ∈ DdMenu.due_diligence ticker none →
      DdMenu.DDEffect.removeReaction e ∈ DdMenu.due_diligence ticker none) := by
  refine ⟨rfl, fun e he => ?_⟩
  simp [DdMenu.due_diligence, DdMenu.emoji_list] at he ⊢
  tauto

/-- Witness for `dd_timeout_cleanup`: the reaction added for the first
menu entry is removed on timeout. -/
theorem dd_timeout_cleanup_witness :
    DdMenu.DDEffect.removeReaction "0️⃣" ∈ DdMenu.due_diligence "TSLA" none :=
  (dd_timeout_cleanup "TSLA").2 "0️⃣" (by decide)

/-- C3: when the input contains `/` and its first segment is non-empty,
the first segment becomes the command line executed this turn and the
remaining non-empty segments are placed at the front of the queue in
their original left-to-right order, so the overall execution order
follows the order written; instantiated through the full fa and qa
`switch` on three-segment inputs. -/
theorem nav_slash_preserves_order :
    (∀ (s : String) (q : List String),
      pyContains s '/' = true → (pySplitOn '/' s).headD "" ≠ "" →
      navUpdate s q = ((pySplitOn '/' s).headD "",
        keepNonEmpty ((pySplitOn '/' s).drop 1) ++ q)) ∧
    FaController.switch "AAPL" [] "info/income/cash" =
      SwitchOutcome.ok "info" ["income", "cash"] ∧
    QaController.switch "AAPL" [] "summary/hist/cdf" =
      SwitchOutcome.ok "summary" ["hist", "cdf"] := by
  refine ⟨fun s q hc hh => ?_, by decide, by decide⟩
  rw [navUpdate_slash s q hc, if_neg hh]

/-- Witness for `nav_slash_preserves_order` on the claim's schematic
input `"a/b/c"` with an empty initial queue. -/
theorem nav_slash_preserves_order_witness :
    navUpdate "a/b/c" [] = ((pySplitOn '/' "a/b/c").headD "",
      keepNonEmpty ((pySplitOn '/' "a/b/c").drop 1) ++ []) :=
  nav_slash_preserves_order.1 "a/b/c" [] (by decide) (by decide)

/-- C6: when the input contains `/` and its first segment is empty, the
command line executed this turn is `"home"` and the remaining non-empty
segments are still enqueued; through the full fa `switch`, `"/x"` with a
loaded queue dispatches `home` (prepending its two `"quit"` tokens) and
leaves `x` queued right behind them, so `x` executes after the unwind. -/
theorem slash_empty_first_goes_home :
    (∀ (s : String) (q : List String),
      pyContains s '/' = true → (pySplitOn '/' s).headD "" = "" →
      navUpdate s q = ("home", keepNonEmpty ((pySplitOn '/' s).drop 1) ++ q)) ∧
    (∀ (x t : String) (q : List String), x ≠ "" → pyContains x '/' = false →
      FaController.switch t q ("/" ++ x) =
        SwitchOutcome.ok "home" ("quit" :: "quit" :: x :: q)) := by
  constructor
  · intro s q hc hh
    rw [navUpdate_slash s q hc, if_pos hh]
  · intro x t q hx hsl
    have hchars : chars ("/" ++ x) = '/' :: chars x := rfl
    have hxc : (chars x).contains '/' = false := hsl
    have hsplit : pySplitOn '/' ("/" ++ x) = ["", x] := by
      unfold pySplitOn
      rw [hchars, splitOnChar_cons_self, splitOnChar_of_not_contains _ _ hxc]
      simp [ofChars, chars]
    have hcont : pyContains ("/" ++ x) '/' = true := by
      unfold pyContains
      rw [hchars]
      simp
    have hne : ("/" ++ x) ≠ "" := by
      intro h
      have h2 := congrArg chars h
      rw [hchars] at h2
      simp [chars] at h2
    have hnav : navUpdate ("/" ++ x) q = ("home", x :: q) := by
      rw [navUpdate_slash _ _ hcont, hsplit]
      simp [keepNonEmpty, hx]
    unfold FaController.switch
    rw [if_neg hne]
    simp only [hnav]
    rfl

/-- Witness for `slash_empty_first_goes_home` at input `"/info"`. -/
theorem slash_empty_first_goes_home_witness :
    FaController.switch "AAPL" ["next"] ("/" ++ "info") =
      SwitchOutcome.ok "home" ("quit" :: "quit" :: "info" :: ["next"]) :=
  slash_empty_first_goes_home.2 "info" "AAPL" ["next"] (by decide) (by decide)

end GST
